import Mathlib

/-!
Verification development for the EPIC Earth Bot tracking/reconciliation
state machine (`src/utils/tracking.py`, `src/main.py`, `src/utils/tui.py`,
`src/utils/youtube_upload.py`).

The persistent ledger `data/tracking.json` is a JSON object mapping a date
string `YYYY-MM-DD` to a per-date record.  We embed it as an insertion-ordered
association list with unique keys (Python `dict` semantics: updating an
existing key keeps its position, inserting a new key appends at the end).
The filesystem is embedded as a predicate `fs : String → Bool` standing for
`Path(p).exists()`, timestamps as opaque strings supplied by the caller
(`datetime.now(timezone.utc).isoformat()`), and `Path(p).resolve()` as an
uninterpreted function `resolve : String → String`.  Calls to external
collaborators that may raise are embedded as `Except Unit` results.
-/

namespace EpicBot

/-- One per-date record of `data/tracking.json` (module docstring of
`tracking.py`): fields `video_created`, `video_path`, `created_at`,
`youtube_uploaded`, `youtube_video_id`, `uploaded_at`.  A missing key is
embedded as `false` / `none` (Python `entry.get` returns a falsy default). -/
structure Entry where
  video_created : Bool := false
  video_path : Option String := none
  created_at : Option String := none
  youtube_uploaded : Bool := false
  youtube_video_id : Option String := none
  uploaded_at : Option String := none
deriving DecidableEq

/-- The tracking mapping: insertion-ordered association list with unique
keys, embedding the JSON object held in `tracking.json`. -/
abbrev Ledger := List (String × Entry)

/-- `data.get(date_str)`: first (unique) binding of the key. -/
def lookupEntry : Ledger → String → Option Entry
  | [], _ => none
  | (k, e) :: rest, d => if k = d then some e else lookupEntry rest d

/-- `data[date_str] = e` on a dict that may or may not contain the key:
replaces in place (keeping position) or appends at the end. -/
def setEntry : Ledger → String → Entry → Ledger
  | [], d, e => [(d, e)]
  | (k, e0) :: rest, d, e =>
      if k = d then (k, e) :: rest else (k, e0) :: setEntry rest d e

/-- `tracking.get_entry`: `data.get(date_str)`. -/
def get_entry (data : Ledger) (date_str : String) : Option Entry :=
  lookupEntry data date_str

/-- `tracking.is_video_created`: entry exists, `video_created` and
`video_path` truthy, and the file exists on disk (`Path(...).exists()`,
embedded by `fs`).  Stored paths come from `Path(...).resolve()` and are
never the empty string, so Python truthiness of `video_path` is `isSome`. -/
def is_video_created (fs : String → Bool) (data : Ledger) (date_str : String) : Bool :=
  match get_entry data date_str with
  | none => false
  | some entry =>
    match entry.video_created, entry.video_path with
    | true, some video_path => fs video_path
    | _, _ => false

/-- `tracking.is_video_created` in store-passing form: the function body only
reads (`_load` via `get_entry`) and never calls `_save`, so the backing store
after the call is the store before it. -/
def is_video_created_call (fs : String → Bool) (data : Ledger) (date_str : String) :
    Bool × Ledger :=
  (is_video_created fs data date_str, data)

/-- `tracking.is_uploaded`: `bool(entry.get("youtube_uploaded"))`. -/
def is_uploaded (data : Ledger) (date_str : String) : Bool :=
  match get_entry data date_str with
  | none => false
  | some entry => entry.youtube_uploaded

/-- `tracking.mark_video_created`: upsert, then
`update({"video_created": True, "video_path": str(Path(p).resolve()),
"created_at": now})`, leaving the other keys of the record untouched. -/
def mark_video_created (resolve : String → String) (now : String)
    (data : Ledger) (date_str video_path : String) : Ledger :=
  let entry := (lookupEntry data date_str).getD {}
  setEntry data date_str
    { entry with
      video_created := true
      video_path := some (resolve video_path)
      created_at := some now }

/-- `tracking.mark_uploaded`: upsert, then
`update({"youtube_uploaded": True, "youtube_video_id": id,
"uploaded_at": now})`, leaving the other keys of the record untouched. -/
def mark_uploaded (now : String) (data : Ledger) (date_str youtube_video_id : String) :
    Ledger :=
  let entry := (lookupEntry data date_str).getD {}
  setEntry data date_str
    { entry with
      youtube_uploaded := true
      youtube_video_id := some youtube_video_id
      uploaded_at := some now }

/-- Modelled from the spec: `clearVideoCreated(DateKey)` — the function
`unmark_video_created` that `src/utils/tui.py` imports from
`utils.tracking` (regenerate/delete-local flows) is not present under
`src/`; per the spec it unsets `videoCreated` (path/timestamp cleared — an
implementation choice the spec allows) and must not resurrect a false
"created" read. -/
def unmark_video_created (data : Ledger) (date_str : String) : Ledger :=
  match lookupEntry data date_str with
  | none => data
  | some entry =>
      setEntry data date_str
        { entry with video_created := false, video_path := none, created_at := none }

/-- Modelled from the spec: `clearUploaded(DateKey)` — the function
`unmark_uploaded` that `src/utils/tui.py` imports from `utils.tracking`
(sync/remove-from-YouTube flows) is not present under `src/`; per the spec
it unsets `uploaded` (remoteId/timestamp cleared — an implementation choice
the spec allows) and must not resurrect a false "uploaded" read. -/
def unmark_uploaded (data : Ledger) (date_str : String) : Ledger :=
  match lookupEntry data date_str with
  | none => data
  | some entry =>
      setEntry data date_str
        { entry with youtube_uploaded := false, youtube_video_id := none, uploaded_at := none }

/-- `tracking.get_dates_needing_video`: the dates of the list without a
created video, in input order. -/
def get_dates_needing_video (fs : String → Bool) (data : Ledger)
    (date_list : List String) : List String :=
  date_list.filter (fun d => !is_video_created fs data d)

/-- `tracking.get_dates_needing_upload`: the dates of the list with a created
video that is not yet uploaded, in input order. -/
def get_dates_needing_upload (fs : String → Bool) (data : Ledger)
    (date_list : List String) : List String :=
  date_list.filter (fun d => is_video_created fs data d && !is_uploaded data d)

lemma lookup_setEntry_self (data : Ledger) (d : String) (e : Entry) :
    lookupEntry (setEntry data d e) d = some e := by
  induction data with
  | nil => simp [setEntry, lookupEntry]
  | cons kv rest ih =>
    obtain ⟨k, e0⟩ := kv
    by_cases hk : k = d
    · simp [setEntry, lookupEntry, hk]
    · simp [setEntry, lookupEntry, hk, ih]

lemma lookup_setEntry_other (data : Ledger) (d d' : String) (e : Entry)
    (h : d' ≠ d) : lookupEntry (setEntry data d e) d' = lookupEntry data d' := by
  have hs : d ≠ d' := Ne.symm h
  induction data with
  | nil => simp [setEntry, lookupEntry, hs]
  | cons kv rest ih =>
    obtain ⟨k, e0⟩ := kv
    by_cases hk : k = d
    · subst hk
      simp [setEntry, lookupEntry, hs]
    · by_cases hk' : k = d'
      · simp [setEntry, lookupEntry, hk, hk', h]
      · simp [setEntry, lookupEntry, hk, hk', ih]

/-- C1: `is_video_created(d)` is true iff a record for `d` exists, its
`video_created` flag is true, and a file currently exists at the record's
`video_path`; a dangling flag with a missing file reads false; the read
leaves the mapping completely unchanged (no write). -/
theorem C1_is_video_created_iff (fs : String → Bool) (data : Ledger) (d : String) :
    (is_video_created fs data d = true ↔
      ∃ e, get_entry data d = some e ∧ e.video_created = true ∧
        ∃ p, e.video_path = some p ∧ fs p = true)
    ∧ (∀ e p, get_entry data d = some e → e.video_created = true →
        e.video_path = some p → fs p = false → is_video_created fs data d = false)
    ∧ (is_video_created_call fs data d).2 = data := by
  refine ⟨?_, ?_, rfl⟩
  · unfold is_video_created
    cases hg : get_entry data d with
    | none => simp
    | some e =>
      cases hvc : e.video_created with
      | false => cases hvp : e.video_path <;> simp_all
      | true =>
        cases hvp : e.video_path with
        | none => simp_all
        | some p => simp_all
  · intro e p hg hvc hvp hfs
    unfold is_video_created
    rw [hg]
    simp [hvc, hvp, hfs]

/-- Witness for C1 at a concrete input: flag set, path recorded, file
missing on storage — the read returns false and the store is unchanged. -/
theorem C1_is_video_created_iff_witness :
    is_video_created (fun _ => false)
      [("2026-02-02", { video_created := true, video_path := some "/out/v.mp4" })]
      "2026-02-02" = false := by
  exact (C1_is_video_created_iff (fun _ => false)
      [("2026-02-02", { video_created := true, video_path := some "/out/v.mp4" })]
      "2026-02-02").2.1 { video_created := true, video_path := some "/out/v.mp4" }
      "/out/v.mp4" (by decide) rfl rfl rfl

/-- C3: the ledger has the inverse mutators (`unmark_video_created`,
`unmark_uploaded`); immediately after `unmark_video_created d` the read
`is_video_created d` is false, for every filesystem state — in particular
even when the video file still exists; likewise `is_uploaded` is false
immediately after `unmark_uploaded d`. -/
theorem C3_clear_then_read_false (fs : String → Bool) (data : Ledger) (d : String) :
    is_video_created fs (unmark_video_created data d) d = false ∧
    is_uploaded (unmark_uploaded data d) d = false := by
  constructor
  · unfold unmark_video_created
    cases hg : lookupEntry data d with
    | none => simp [is_video_created, get_entry, hg]
    | some e => simp [is_video_created, get_entry, lookup_setEntry_self]
  · unfold unmark_uploaded
    cases hg : lookupEntry data d with
    | none => simp [is_uploaded, get_entry, hg]
    | some e => simp [is_uploaded, get_entry, lookup_setEntry_self]

/-- C10: frame-disjointness of the two mutators on an existing record —
`mark_uploaded` rewrites `d`'s record to exactly the old record with only
`youtube_uploaded`/`youtube_video_id`/`uploaded_at` changed, and
`mark_video_created` to exactly the old record with only
`video_created`/`video_path`/`created_at` changed; every other key reads
unchanged under both. -/
theorem C10_mutators_frame (resolve : String → String) (now : String) (data : Ledger)
    (d vid p : String) (e : Entry) (h : get_entry data d = some e) :
    get_entry (mark_uploaded now data d vid) d =
      some { e with youtube_uploaded := true, youtube_video_id := some vid,
                    uploaded_at := some now }
    ∧ (∀ d', d' ≠ d → get_entry (mark_uploaded now data d vid) d' = get_entry data d')
    ∧ get_entry (mark_video_created resolve now data d p) d =
      some { e with video_created := true, video_path := some (resolve p),
                    created_at := some now }
    ∧ (∀ d', d' ≠ d →
        get_entry (mark_video_created resolve now data d p) d' = get_entry data d') := by
  unfold get_entry at h
  refine ⟨?_, ?_, ?_, ?_⟩
  · simp [mark_uploaded, get_entry, h, lookup_setEntry_self]
  · intro d' hd'
    simp [mark_uploaded, get_entry, lookup_setEntry_other _ _ _ _ hd']
  · simp [mark_video_created, get_entry, h, lookup_setEntry_self]
  · intro d' hd'
    simp [mark_video_created, get_entry, lookup_setEntry_other _ _ _ _ hd']

/-- Witness for C10 at a concrete input: marking `2026-02-02` uploaded
touches only the upload fields of its record and leaves the other date's
record unchanged. -/
theorem C10_mutators_frame_witness :
    get_entry (mark_uploaded "T1" [("2026-02-01", { video_created := true }),
        ("2026-02-02", { video_created := true, video_path := some "/out/v.mp4" })]
        "2026-02-02" "yt42") "2026-02-02" =
      some { video_created := true, video_path := some "/out/v.mp4",
             youtube_uploaded := true, youtube_video_id := some "yt42",
             uploaded_at := some "T1" }
    ∧ get_entry (mark_uploaded "T1" [("2026-02-01", { video_created := true }),
        ("2026-02-02", { video_created := true, video_path := some "/out/v.mp4" })]
        "2026-02-02" "yt42") "2026-02-01" =
      some { video_created := true } := by
  have h := C10_mutators_frame (fun s => s) "T1"
    [("2026-02-01", { video_created := true }),
     ("2026-02-02", { video_created := true, video_path := some "/out/v.mp4" })]
    "2026-02-02" "yt42" "/p"
    { video_created := true, video_path := some "/out/v.mp4" } (by decide)
  refine ⟨h.1, ?_⟩
  rw [h.2.1 "2026-02-01" (by decide)]
  decide

/-- Gregorian leap year, as `calendar`/`datetime` define it. -/
def isLeapYear (y : Nat) : Bool :=
  (y % 4 = 0 && y % 100 ≠ 0) || y % 400 = 0

/-- Length of month `m` of year `y` (`datetime` month lengths). -/
def daysInMonth (y m : Nat) : Nat :=
  if m = 2 then (if isLeapYear y then 29 else 28)
  else if m = 4 || m = 6 || m = 9 || m = 11 then 30
  else 31

/-- Days in the years before year `y` (proleptic Gregorian, as
`datetime.date.toordinal`). -/
def daysBeforeYear (y : Nat) : Nat :=
  365 * (y - 1) + (y - 1) / 4 - (y - 1) / 100 + (y - 1) / 400

/-- Days in the months of year `y` before month `m`. -/
def daysBeforeMonth (y m : Nat) : Nat :=
  (List.range (m - 1)).foldl (fun acc i => acc + daysInMonth y (i + 1)) 0

/-- `datetime.date(y, m, d).toordinal()`: day number in the proleptic
Gregorian calendar, with day 1 = 0001-01-01. -/
def toOrdinal (y m d : Nat) : Nat :=
  daysBeforeYear y + daysBeforeMonth y m + d

/-- Split a character list at every dash (the format's literal `-`). -/
def splitDash : List Char → List (List Char)
  | [] => [[]]
  | c :: rest =>
    if c = '-' then [] :: splitDash rest
    else
      match splitDash rest with
      | g :: gs => (c :: g) :: gs
      | [] => [[c]]

/-- A non-empty all-digit group read as a number, else `none`. -/
def digitsToNat (cs : List Char) : Option Nat :=
  if !cs.isEmpty && cs.all Char.isDigit then
    some (cs.foldl (fun n c => 10 * n + (c.toNat - 48)) 0)
  else none

/-- `datetime.strptime(s, "%Y-%m-%d")` followed by `.date()`: three
dash-separated digit groups (at most 4/2/2 digits), month 1–12, day within
the month, year ≥ 1; any other input raises `ValueError`, embedded as
`none`. -/
def parseDate (s : String) : Option (Nat × Nat × Nat) :=
  match splitDash s.data with
  | [ys, ms, ds] =>
    match digitsToNat ys, digitsToNat ms, digitsToNat ds with
    | some y, some m, some d =>
      if ys.length ≤ 4 && ms.length ≤ 2 && ds.length ≤ 2
          && 1 ≤ y && 1 ≤ m && m ≤ 12 && 1 ≤ d && d ≤ daysInMonth y m
      then some (y, m, d) else none
    | _, _, _ => none
  | _ => none

/-- The condition under which `cleanup_old_entries` deletes a key: the key
parses as a date strictly before the cutoff; an unparseable key
(`ValueError`) is skipped (`continue`), never an error. -/
def entryIsOld (cutoff : Nat) (date_str : String) : Bool :=
  match parseDate date_str with
  | some (y, m, d) => toOrdinal y m d < cutoff
  | none => false

/-- The `for date_str in list(data.keys()): ... del data[date_str]` loop of
`cleanup_old_entries`: first component the surviving mapping (order kept),
second the deleted keys in iteration order. -/
def cleanupLoop (cutoff : Nat) : Ledger → Ledger × List String
  | [] => ([], [])
  | (k, e) :: rest =>
    let r := cleanupLoop cutoff rest
    if entryIsOld cutoff k then (r.1, k :: r.2) else ((k, e) :: r.1, r.2)

/-- `tracking.cleanup_old_entries(keep_days)`: removes the entries dated
strictly before `today - keep_days` (the cutoff is
`(datetime.now(utc) - timedelta(days=keep_days)).date()`, i.e. ordinal
`todayOrd - keep_days`), saves, and returns `None` — the second component
embeds the Python return value, which is always `None`; the deleted keys
are only printed. -/
def cleanup_old_entries (keep_days todayOrd : Nat) (data : Ledger) :
    Ledger × Option (List String) :=
  ((cleanupLoop (todayOrd - keep_days) data).1, none)

/-- Ledger parse failure: `json.load` raising `json.JSONDecodeError`
(the spec's `CorruptStateError`). -/
inductive CorruptStateError where
  | corrupt
deriving DecidableEq

/-- `tracking._load`, over an abstract backing store: `none` = the file does
not exist; `some contents` = the file exists with the given contents.  A
missing or zero-byte file yields `{}`; otherwise `json.load` runs — its
failure (`parse contents = none`) raises, and `_load` has no handler, so
the error propagates to the caller. -/
def _load (parse : String → Option Ledger) : Option String → Except CorruptStateError Ledger
  | none => .ok []
  | some contents =>
    if contents = "" then .ok []
    else
      match parse contents with
      | some data => .ok data
      | none => .error .corrupt

/-- A stand-in for the external JSON parser, used to instantiate `_load` at
concrete inputs; like every JSON parser it rejects the empty string and the
string `"oops"` (neither is valid JSON) and accepts `"{}"`. -/
def toyJsonParse : String → Option Ledger :=
  fun s => if s = "{}" then some [] else none

lemma cleanupLoop_eq (cutoff : Nat) (data : Ledger) :
    cleanupLoop cutoff data =
      (data.filter (fun kv => !entryIsOld cutoff kv.1),
       (data.filter (fun kv => entryIsOld cutoff kv.1)).map Prod.fst) := by
  induction data with
  | nil => rfl
  | cons kv rest ih =>
    obtain ⟨k, e⟩ := kv
    by_cases h : entryIsOld cutoff k <;>
      simp [cleanupLoop, ih, h, List.filter_cons]

/-- C5 (amended): `cleanup_old_entries keep_days` removes exactly the
records whose key parses as a date strictly before the cutoff
`todayOrd - keep_days`; a record dated exactly at the cutoff (exactly
`keep_days` days old) is retained, unparseable keys are skipped without
raising, every other record is kept unchanged in order — but the function
returns `None`: the removed keys are only logged, not returned. -/
theorem C5_cleanup_amended (keep_days todayOrd : Nat) (data : Ledger) :
    (cleanup_old_entries keep_days todayOrd data).1 =
      data.filter (fun kv => !entryIsOld (todayOrd - keep_days) kv.1)
    ∧ (cleanupLoop (todayOrd - keep_days) data).2 =
      (data.filter (fun kv => entryIsOld (todayOrd - keep_days) kv.1)).map Prod.fst
    ∧ (cleanup_old_entries keep_days todayOrd data).2 = none
    ∧ (∀ k y m d, parseDate k = some (y, m, d) →
        entryIsOld (todayOrd - keep_days) k =
          decide (toOrdinal y m d < todayOrd - keep_days))
    ∧ (∀ k, parseDate k = none → entryIsOld (todayOrd - keep_days) k = false)
    ∧ (∀ k e, (k, e) ∈ data → entryIsOld (todayOrd - keep_days) k = false →
        (k, e) ∈ (cleanup_old_entries keep_days todayOrd data).1) := by
  refine ⟨?_, ?_, rfl, ?_, ?_, ?_⟩
  · simp [cleanup_old_entries, cleanupLoop_eq]
  · simp [cleanupLoop_eq]
  · intro k y m d h
    simp [entryIsOld, h]
  · intro k h
    simp [entryIsOld, h]
  · intro k e hmem hold
    simp [cleanup_old_entries, cleanupLoop_eq, List.mem_filter]
    exact ⟨hmem, hold⟩

/-- Witness for C5 at a concrete input: one stale record is removed, an
unparseable key survives, and the call returns `None`. -/
theorem C5_cleanup_amended_witness :
    (cleanup_old_entries 30 739000 [("2020-01-01", {}), ("oops", {})]).1 = [("oops", {})]
    ∧ (cleanup_old_entries 30 739000 [("2020-01-01", {}), ("oops", {})]).2 = none
    ∧ ("oops", ({} : Entry)) ∈
        (cleanup_old_entries 30 739000 [("2020-01-01", {}), ("oops", {})]).1 := by
  have h := C5_cleanup_amended 30 739000 [("2020-01-01", {}), ("oops", {})]
  refine ⟨?_, h.2.2.1, ?_⟩
  · rw [h.1]
    decide
  · exact h.2.2.2.2.2 "oops" {} (by decide) (h.2.2.2.2.1 "oops" (by decide))

/-- Counterexample to C5 as stated: at a cutoff that removes
`"2020-01-01"`, the removed-key sequence is `["2020-01-01"]`, yet the
function's return value is `None`, not that sequence. -/
theorem C5_counterexample :
    (cleanupLoop (739000 - 30) [("2020-01-01", {})]).2 = ["2020-01-01"]
    ∧ (cleanup_old_entries 30 739000 [("2020-01-01", {})]).2 ≠ some ["2020-01-01"] := by
  exact ⟨by decide, by simp [cleanup_old_entries]⟩

/-- C6 (amended): if the backing store exists, is non-empty, and cannot be
parsed, `_load` fails with the corrupt-state error, which propagates (it is
never an `ok` result, in particular never the empty mapping); an existing
zero-byte store, although not valid JSON either, is instead treated like a
missing one and yields the empty mapping. -/
theorem C6_load_amended (parse : String → Option Ledger) (s : String)
    (hne : s ≠ "") (hp : parse s = none) :
    _load parse (some s) = .error CorruptStateError.corrupt
    ∧ ∀ data : Ledger, _load parse (some s) ≠ .ok data := by
  have herr : _load parse (some s) = .error CorruptStateError.corrupt := by
    simp [_load, hne, hp]
  refine ⟨herr, fun data h => ?_⟩
  rw [herr] at h
  exact Except.noConfusion h

/-- Witness for C6 (amended) at a concrete input: a non-empty unparseable
store makes `_load` fail with the corrupt-state error. -/
theorem C6_load_amended_witness :
    _load toyJsonParse (some "oops") = .error CorruptStateError.corrupt :=
  (C6_load_amended toyJsonParse "oops" (by decide) (by decide)).1

/-- Counterexample to C6 as stated: an existing zero-byte store cannot be
parsed as JSON (`parse "" = none`), yet `_load` returns the empty mapping
instead of failing. -/
theorem C6_counterexample :
    toyJsonParse "" = none
    ∧ _load toyJsonParse (some "") = Except.ok ([] : Ledger) :=
  ⟨rfl, rfl⟩

/-- `strftime("%B")`: full English month name. -/
def monthName : Nat → String
  | 1 => "January"
  | 2 => "February"
  | 3 => "March"
  | 4 => "April"
  | 5 => "May"
  | 6 => "June"
  | 7 => "July"
  | 8 => "August"
  | 9 => "September"
  | 10 => "October"
  | 11 => "November"
  | 12 => "December"
  | _ => ""

/-- `strftime("%d")`: zero-padded day of month. -/
def pad2 (n : Nat) : String :=
  if n < 10 then "0" ++ toString n else toString n

/-- `youtube_upload.make_video_title`: parse the date (`%Y-%m-%d`), render
it as `"%B %d, %Y"`, falling back to the raw string on `ValueError`, and
wrap it in the fixed title template. -/
def make_video_title (date_str : String) : String :=
  let formatted :=
    match parseDate date_str with
    | some (y, m, d) => monthName m ++ " " ++ pad2 d ++ ", " ++ toString y
    | none => date_str
  "Earth from Space - " ++ formatted ++ " | NASA EPIC"

/-- Lookup in the remote title → id listing
(`get_uploaded_video_titles` result, embedded as an association list). -/
def lookupListing : List (String × String) → String → Option String
  | [], _ => none
  | (t, i) :: rest, title => if t = title then some i else lookupListing rest title

/-- Loop state of `tui.youtube_sync`: the tracking mapping and the
`synced` / `desynced` counters. -/
structure SyncStep where
  ledger : Ledger
  synced : Nat
  desynced : Nat
deriving DecidableEq

/-- One iteration of the `for d in dates` loop of `tui.youtube_sync`:
`on_youtube = title in yt_titles`, `in_tracking = is_uploaded(d)`; present
remotely but not locally → `mark_uploaded(d, yt_titles[title])`; absent
remotely but marked locally → `unmark_uploaded(d)`; otherwise no change. -/
def syncDate (now : String) (yt_titles : List (String × String))
    (s : SyncStep) (d : String) : SyncStep :=
  let in_tracking := is_uploaded s.ledger d
  match lookupListing yt_titles (make_video_title d) with
  | some video_id =>
    if !in_tracking then
      { s with ledger := mark_uploaded now s.ledger d video_id, synced := s.synced + 1 }
    else s
  | none =>
    if in_tracking then
      { s with ledger := unmark_uploaded s.ledger d, desynced := s.desynced + 1 }
    else s

/-- `tui.youtube_sync` over an already-fetched remote listing and date
list: fold the per-date reconciliation over the candidate dates. -/
def youtube_sync (now : String) (yt_titles : List (String × String))
    (data : Ledger) (dates : List String) : SyncStep :=
  dates.foldl (syncDate now yt_titles) ⟨data, 0, 0⟩

/-- External collaborators of `main.upload_missing_videos`:
`get_authenticated_service` (session embedded as `Unit`),
`get_uploaded_video_titles`, and `upload_video` (file path, date →
video id or `None`); a raising call is an `error` result. -/
structure UploadEnv where
  auth : Except Unit Unit
  listTitles : Except Unit (List (String × String))
  uploadVideo : String → String → Except Unit (Option String)

/-- Loop state of `main.upload_missing_videos`: the `uploaded` counter, the
tracking mapping, and — as instrumentation of the source's control flow —
the dates for which the publish operation `upload_video` was invoked. -/
structure UploadStep where
  uploaded : Nat
  ledger : Ledger
  attempts : List String
deriving DecidableEq

/-- One iteration of the `for date_str in need_upload` loop of
`main.upload_missing_videos`: title already in the remote listing →
`mark_uploaded` with the listing's id, count, `continue` (no publish);
otherwise find the record's `video_path` (skip if absent in the ledger or
on disk) and call `upload_video`, recording and counting on a returned id,
logging and continuing otherwise. -/
def uploadDate (env : UploadEnv) (fs : String → Bool) (now : String)
    (existing_titles : List (String × String)) (u : UploadStep) (date_str : String) :
    UploadStep :=
  match lookupListing existing_titles (make_video_title date_str) with
  | some video_id =>
    { u with uploaded := u.uploaded + 1
             ledger := mark_uploaded now u.ledger date_str video_id }
  | none =>
    match get_entry u.ledger date_str with
    | none => u
    | some entry =>
      match entry.video_path with
      | none => u
      | some video_path =>
        if fs video_path then
          let u' := { u with attempts := u.attempts ++ [date_str] }
          match env.uploadVideo video_path date_str with
          | .ok (some video_id) =>
            { u' with uploaded := u'.uploaded + 1
                      ledger := mark_uploaded now u'.ledger date_str video_id }
          | .ok none => u'
          | .error _ => u'
        else u

/-- `main.upload_missing_videos`: nothing to upload → 0; authentication
failure → log and return 0; listing fetch failure → degrade to `{}` and
proceed; then the per-date loop. -/
def upload_missing_videos_run (env : UploadEnv) (fs : String → Bool) (now : String)
    (data : Ledger) (dates : List String) : UploadStep :=
  let need_upload := get_dates_needing_upload fs data dates
  if need_upload.isEmpty then ⟨0, data, []⟩
  else
    match env.auth with
    | .error _ => ⟨0, data, []⟩
    | .ok _ =>
      let existing_titles :=
        match env.listTitles with
        | .ok ts => ts
        | .error _ => []
      need_upload.foldl (uploadDate env fs now existing_titles) ⟨0, data, []⟩

/-- The pair `main.upload_missing_videos` exposes to its caller: the
returned count and the resulting tracking mapping. -/
def upload_missing_videos (env : UploadEnv) (fs : String → Bool) (now : String)
    (data : Ledger) (dates : List String) : Nat × Ledger :=
  let r := upload_missing_videos_run env fs now data dates
  (r.uploaded, r.ledger)

/-- External collaborators of `main.create_missing_videos`:
`get_images_metadata_for_date`, `download_images` (into `FRAMES_DIR`), and
`create_video` (frames, output path, date → written path); a raising call
is an `error` result. -/
structure BuildEnv where
  fetchMeta : String → Except Unit (List String)
  downloadImages : List String → Except Unit (List String)
  createVideo : List String → String → String → Except Unit String

/-- Persistent state `main.create_missing_videos` acts on: the tracking
mapping and whether the scratch `FRAMES_DIR` currently exists. -/
structure BuildState where
  ledger : Ledger
  framesDirExists : Bool
deriving DecidableEq

/-- Loop state of `main.create_missing_videos`: the persistent state, the
`created` counter, and — as instrumentation of the source's control flow —
the dates for which `mark_video_created` was performed this call. -/
structure BuildStep where
  st : BuildState
  created : Nat
  recorded : List String
deriving DecidableEq

/-- `OUTPUT_DIR / f"epic_earth_{date_str}.mp4"`. -/
def outputPathFor (date_str : String) : String :=
  "output/epic_earth_" ++ date_str ++ ".mp4"

/-- The `try:` body of one iteration of `main.create_missing_videos`:
fetch metadata (skip if empty), download frames (`download_images` creates
`FRAMES_DIR` before downloading, so it exists from that point on, also when
the download itself raises), skip if fewer than 2 frames, render, then
`mark_video_created` and count; any raising call leaves the iteration
through the handler with no further effects. -/
def processDateBody (env : BuildEnv) (resolve : String → String) (now : String)
    (b : BuildStep) (date_str : String) : BuildStep :=
  match env.fetchMeta date_str with
  | .error _ => b
  | .ok metadata =>
    if metadata.isEmpty then b
    else
      let b1 : BuildStep := { b with st := { b.st with framesDirExists := true } }
      match env.downloadImages metadata with
      | .error _ => b1
      | .ok frames =>
        if frames.length < 2 then b1
        else
          match env.createVideo frames (outputPathFor date_str) date_str with
          | .error _ => b1
          | .ok video_path =>
            { b1 with
              st := { b1.st with
                      ledger := mark_video_created resolve now b1.st.ledger date_str video_path }
              created := b1.created + 1
              recorded := b1.recorded ++ [date_str] }

/-- One full iteration of the per-date loop: the `try/except` body followed
by the unconditional `finally: cleanup_frames()`, after which `FRAMES_DIR`
does not exist. -/
def processDate (env : BuildEnv) (resolve : String → String) (now : String)
    (b : BuildStep) (date_str : String) : BuildStep :=
  let r := processDateBody env resolve now b date_str
  { r with st := { r.st with framesDirExists := false } }

/-- `main.create_missing_videos`: compute the dates still needing a video;
none → return 0 with nothing touched; otherwise run the per-date loop. -/
def create_missing_videos_run (env : BuildEnv) (fs : String → Bool)
    (resolve : String → String) (now : String) (st : BuildState)
    (dates : List String) : BuildStep :=
  let need_video := get_dates_needing_video fs st.ledger dates
  if need_video.isEmpty then ⟨st, 0, []⟩
  else need_video.foldl (processDate env resolve now) ⟨st, 0, []⟩

/-- The pair `main.create_missing_videos` exposes to its caller: the
returned count and the resulting persistent state. -/
def create_missing_videos (env : BuildEnv) (fs : String → Bool)
    (resolve : String → String) (now : String) (st : BuildState)
    (dates : List String) : Nat × BuildState :=
  let r := create_missing_videos_run env fs resolve now st dates
  (r.created, r.st)

/-- Whether one date's build attempt reaches `mark_video_created`: decided
solely by that date's own collaborator calls (metadata non-empty, download
succeeds with at least 2 frames, render succeeds), independently of the
other dates. -/
def dateSucceeds (env : BuildEnv) (date_str : String) : Bool :=
  match env.fetchMeta date_str with
  | .error _ => false
  | .ok metadata =>
    if metadata.isEmpty then false
    else
      match env.downloadImages metadata with
      | .error _ => false
      | .ok frames =>
        if frames.length < 2 then false
        else
          match env.createVideo frames (outputPathFor date_str) date_str with
          | .error _ => false
          | .ok _ => true

lemma get_entry_mark_uploaded (now : String) (data : Ledger) (d vid : String) :
    get_entry (mark_uploaded now data d vid) d =
      some { (lookupEntry data d).getD {} with
             youtube_uploaded := true
             youtube_video_id := some vid
             uploaded_at := some now } := by
  simp [mark_uploaded, get_entry, lookup_setEntry_self]

lemma is_uploaded_mark_uploaded (now : String) (data : Ledger) (d vid : String) :
    is_uploaded (mark_uploaded now data d vid) d = true := by
  simp [is_uploaded, get_entry_mark_uploaded]

lemma is_uploaded_unmark_uploaded (data : Ledger) (d : String) :
    is_uploaded (unmark_uploaded data d) d = false := by
  unfold unmark_uploaded
  cases hg : lookupEntry data d with
  | none => simp [is_uploaded, get_entry, hg]
  | some e => simp [is_uploaded, get_entry, lookup_setEntry_self]

lemma get_entry_mark_uploaded_other (now : String) (data : Ledger) (d vid d' : String)
    (h : d' ≠ d) : get_entry (mark_uploaded now data d vid) d' = get_entry data d' := by
  simp [mark_uploaded, get_entry, lookup_setEntry_other _ _ _ _ h]

lemma get_entry_mark_video_created_other (resolve : String → String) (now : String)
    (data : Ledger) (d p d' : String) (h : d' ≠ d) :
    get_entry (mark_video_created resolve now data d p) d' = get_entry data d' := by
  simp [mark_video_created, get_entry, lookup_setEntry_other _ _ _ _ h]

lemma get_entry_unmark_uploaded_other (data : Ledger) (d d' : String) (h : d' ≠ d) :
    get_entry (unmark_uploaded data d) d' = get_entry data d' := by
  unfold unmark_uploaded
  cases hg : lookupEntry data d with
  | none => rfl
  | some e => simp [get_entry, lookup_setEntry_other _ _ _ _ h]

lemma is_uploaded_congr {data data' : Ledger} {d : String}
    (h : get_entry data d = get_entry data' d) : is_uploaded data d = is_uploaded data' d := by
  unfold is_uploaded
  rw [h]

lemma get_entry_syncDate_other (now : String) (yt : List (String × String))
    (s : SyncStep) (d' d : String) (h : d ≠ d') :
    get_entry (syncDate now yt s d').ledger d = get_entry s.ledger d := by
  unfold syncDate
  cases lookupListing yt (make_video_title d') with
  | some vid =>
    by_cases hup : is_uploaded s.ledger d' <;>
      simp [hup, get_entry_mark_uploaded_other _ _ _ _ _ h]
  | none =>
    by_cases hup : is_uploaded s.ledger d' <;>
      simp [hup, get_entry_unmark_uploaded_other _ _ _ h]

lemma get_entry_sync_foldl (now : String) (yt : List (String × String))
    (l : List String) (s : SyncStep) (d : String) (h : d ∉ l) :
    get_entry (l.foldl (syncDate now yt) s).ledger d = get_entry s.ledger d := by
  induction l generalizing s with
  | nil => rfl
  | cons d' rest ih =>
    rw [List.foldl_cons,
      ih (syncDate now yt s d') (fun hm => h (List.mem_cons_of_mem d' hm)),
      get_entry_syncDate_other now yt s d' d (fun he => h (he ▸ List.mem_cons_self d' rest))]

/-- C2: remote-wins reconciliation — for a date `d` of the candidate list
(occurring once), if `d`'s canonical title is in the remote listing with id
`vid` and the ledger does not say `d` is uploaded, then after the sync
`d`'s record has `youtube_uploaded = true` and `youtube_video_id = vid`
(the loop performed `mark_uploaded d vid`); if the title is absent but the
ledger says uploaded, then after the sync `is_uploaded d` is false (the
loop performed `unmark_uploaded d`). -/
theorem C2_sync_remote_wins (now : String) (yt : List (String × String))
    (data : Ledger) (dates l1 l2 : List String) (d vid : String)
    (hdates : dates = l1 ++ d :: l2) (h1 : d ∉ l1) (h2 : d ∉ l2) :
    (lookupListing yt (make_video_title d) = some vid →
      is_uploaded data d = false →
      get_entry (youtube_sync now yt data dates).ledger d =
        some { (lookupEntry data d).getD {} with
               youtube_uploaded := true
               youtube_video_id := some vid
               uploaded_at := some now }
      ∧ is_uploaded (youtube_sync now yt data dates).ledger d = true)
    ∧ (lookupListing yt (make_video_title d) = none →
      is_uploaded data d = true →
      is_uploaded (youtube_sync now yt data dates).ledger d = false) := by
  subst hdates
  unfold youtube_sync
  rw [List.foldl_append, List.foldl_cons]
  set s1 : SyncStep := l1.foldl (syncDate now yt) ⟨data, 0, 0⟩ with hs1
  have hpre : get_entry s1.ledger d = get_entry data d :=
    get_entry_sync_foldl now yt l1 ⟨data, 0, 0⟩ d h1
  constructor
  · intro hyt hup
    have hup1 : is_uploaded s1.ledger d = false := by
      rw [is_uploaded_congr hpre]
      exact hup
    have hstep : (syncDate now yt s1 d).ledger = mark_uploaded now s1.ledger d vid := by
      simp [syncDate, hyt, hup1]
    have hpost := get_entry_sync_foldl now yt l2 (syncDate now yt s1 d) d h2
    refine ⟨?_, ?_⟩
    · rw [hpost, hstep, get_entry_mark_uploaded]
      unfold get_entry at hpre
      rw [hpre]
    · rw [is_uploaded_congr hpost, hstep]
      exact is_uploaded_mark_uploaded now s1.ledger d vid
  · intro hyt hup
    have hup1 : is_uploaded s1.ledger d = true := by
      rw [is_uploaded_congr hpre]
      exact hup
    have hstep : (syncDate now yt s1 d).ledger = unmark_uploaded s1.ledger d := by
      simp [syncDate, hyt, hup1]
    have hpost := get_entry_sync_foldl now yt l2 (syncDate now yt s1 d) d h2
    rw [is_uploaded_congr hpost, is_uploaded_congr (congrArg (lookupEntry · d) hstep)]
    exact is_uploaded_unmark_uploaded s1.ledger d

/-- Witness for C2 at concrete inputs: in a three-date sync, a listing
holding the middle date's title adds the upload record with the listing's
id; an empty listing clears the middle date's locally-believed upload. -/
theorem C2_sync_remote_wins_witness :
    is_uploaded (youtube_sync "T1"
        [("Earth from Space - February 02, 2026 | NASA EPIC", "yt42")] []
        ["2026-02-01", "2026-02-02", "2026-02-03"]).ledger "2026-02-02" = true
    ∧ is_uploaded (youtube_sync "T1" []
        [("2026-02-02", { youtube_uploaded := true })]
        ["2026-02-01", "2026-02-02", "2026-02-03"]).ledger "2026-02-02" = false := by
  have h1 := (C2_sync_remote_wins "T1"
      [("Earth from Space - February 02, 2026 | NASA EPIC", "yt42")] []
      ["2026-02-01", "2026-02-02", "2026-02-03"] ["2026-02-01"] ["2026-02-03"]
      "2026-02-02" "yt42" rfl (by decide) (by decide)).1 (by decide) (by decide)
  have h2 := (C2_sync_remote_wins "T1" []
      [("2026-02-02", { youtube_uploaded := true })]
      ["2026-02-01", "2026-02-02", "2026-02-03"] ["2026-02-01"] ["2026-02-03"]
      "2026-02-02" "yt42" rfl (by decide) (by decide)).2 (by decide) (by decide)
  exact ⟨h1.2, h2⟩

lemma uploadDate_attempts (env : UploadEnv) (fs : String → Bool) (now : String)
    (ts : List (String × String)) (u : UploadStep) (d : String) :
    (uploadDate env fs now ts u d).attempts = u.attempts ∨
    ((uploadDate env fs now ts u d).attempts = u.attempts ++ [d]
      ∧ lookupListing ts (make_video_title d) = none) := by
  unfold uploadDate
  cases h : lookupListing ts (make_video_title d) with
  | some vid => simp
  | none =>
    cases hg : get_entry u.ledger d with
    | none => simp
    | some entry =>
      cases hp : entry.video_path with
      | none => simp [hp]
      | some p =>
        by_cases hf : fs p
        · cases hv : env.uploadVideo p d with
          | error e => simp [hp, hf, hv]
          | ok r => cases r <;> simp [hp, hf, hv]
        · simp [hp, hf]

lemma upload_foldl_attempts (env : UploadEnv) (fs : String → Bool) (now : String)
    (ts : List (String × String)) (l : List String) (u : UploadStep)
    (hu : ∀ d ∈ u.attempts, lookupListing ts (make_video_title d) = none) :
    ∀ d ∈ (l.foldl (uploadDate env fs now ts) u).attempts,
      lookupListing ts (make_video_title d) = none := by
  induction l generalizing u with
  | nil => exact hu
  | cons d' rest ih =>
    rw [List.foldl_cons]
    apply ih
    intro d hd
    rcases uploadDate_attempts env fs now ts u d' with h | ⟨h, hn⟩
    · rw [h] at hd
      exact hu d hd
    · rw [h] at hd
      rcases List.mem_append.mp hd with hmem | hmem
      · exact hu d hmem
      · rw [List.mem_singleton.mp hmem]
        exact hn

/-- C4: title-based duplicate prevention in the upload loop — for a date
whose canonical title is in the fetched remote listing, the iteration
records the upload with the id from the listing, counts the date as
uploaded, and does not invoke the publish operation: its outcome does not
depend on the `upload_video` collaborator at all, and over a whole
`upload_missing_videos` call whose fetched listing holds the date's title,
the publish operation is never invoked for that date. -/
theorem C4_title_duplicate_prevention (env : UploadEnv) (fs : String → Bool)
    (now : String) (ts : List (String × String)) (u : UploadStep) (d vid : String)
    (data : Ledger) (dates : List String)
    (h : lookupListing ts (make_video_title d) = some vid) :
    uploadDate env fs now ts u d =
      { uploaded := u.uploaded + 1
        ledger := mark_uploaded now u.ledger d vid
        attempts := u.attempts }
    ∧ (∀ env' : UploadEnv, uploadDate env' fs now ts u d = uploadDate env fs now ts u d)
    ∧ (env.listTitles = .ok ts →
        d ∉ (upload_missing_videos_run env fs now data dates).attempts) := by
  refine ⟨by simp [uploadDate, h], fun env' => by simp [uploadDate, h], fun hts hmem => ?_⟩
  have hnone : lookupListing ts (make_video_title d) = none := by
    revert hmem
    unfold upload_missing_videos_run
    by_cases hne : (get_dates_needing_upload fs data dates).isEmpty
    · simp [hne]
    · simp only [hne, Bool.false_eq_true, if_false]
      cases ha : env.auth with
      | error e => simp
      | ok s =>
        simp only [hts]
        exact fun hmem => upload_foldl_attempts env fs now ts
          (get_dates_needing_upload fs data dates) ⟨0, data, []⟩ (by simp) d hmem
  rw [h] at hnone
  exact Option.noConfusion hnone

/-- Witness for C4 at a concrete input: the listing already holds the title
for `2026-02-02`; the date is counted, recorded with the listing's id, and
the publish collaborator is never invoked for it during the whole call. -/
theorem C4_title_duplicate_prevention_witness :
    uploadDate ⟨.ok (), .ok [("Earth from Space - February 02, 2026 | NASA EPIC", "yt42")],
        fun _ _ => .error ()⟩ (fun _ => true) "T1"
        [("Earth from Space - February 02, 2026 | NASA EPIC", "yt42")]
        ⟨0, [("2026-02-02", { video_created := true, video_path := some "/out/v.mp4" })], []⟩
        "2026-02-02" =
      ⟨1, mark_uploaded "T1"
          [("2026-02-02", { video_created := true, video_path := some "/out/v.mp4" })]
          "2026-02-02" "yt42", []⟩
    ∧ "2026-02-02" ∉ (upload_missing_videos_run
        ⟨.ok (), .ok [("Earth from Space - February 02, 2026 | NASA EPIC", "yt42")],
         fun _ _ => .error ()⟩ (fun _ => true) "T1"
        [("2026-02-02", { video_created := true, video_path := some "/out/v.mp4" })]
        ["2026-02-02"]).attempts := by
  have h := C4_title_duplicate_prevention
      ⟨.ok (), .ok [("Earth from Space - February 02, 2026 | NASA EPIC", "yt42")],
       fun _ _ => .error ()⟩
      (fun _ => true) "T1"
      [("Earth from Space - February 02, 2026 | NASA EPIC", "yt42")]
      ⟨0, [("2026-02-02", { video_created := true, video_path := some "/out/v.mp4" })], []⟩
      "2026-02-02" "yt42"
      [("2026-02-02", { video_created := true, video_path := some "/out/v.mp4" })]
      ["2026-02-02"] (by decide)
  exact ⟨h.1, h.2.2 rfl⟩

/-- C8: an authentication failure aborts the whole upload call — it returns
0 with the mapping unwritten and no publish attempts; a listing-fetch
failure instead degrades to an empty listing: the call behaves exactly as
it would with an explicitly empty remote listing, per-date loop included. -/
theorem C8_auth_fatal_listing_nonfatal (env : UploadEnv) (fs : String → Bool)
    (now : String) (data : Ledger) (dates : List String) :
    (env.auth = .error () →
      upload_missing_videos_run env fs now data dates = ⟨0, data, []⟩
      ∧ upload_missing_videos env fs now data dates = (0, data))
    ∧ (env.auth = .ok () → env.listTitles = .error () →
      upload_missing_videos_run env fs now data dates =
        upload_missing_videos_run { env with listTitles := .ok [] } fs now data dates) := by
  constructor
  · intro ha
    have hrun : upload_missing_videos_run env fs now data dates = ⟨0, data, []⟩ := by
      unfold upload_missing_videos_run
      by_cases hne : (get_dates_needing_upload fs data dates).isEmpty <;> simp [hne, ha]
    exact ⟨hrun, by simp [upload_missing_videos, hrun]⟩
  · intro ha hl
    unfold upload_missing_videos_run
    simp only [ha, hl]
    rfl

/-- Witness for C8 at concrete inputs: with one date needing upload,
a failing authenticator yields `(0, unchanged ledger)`; a failing
listing fetch behaves exactly like an empty listing. -/
theorem C8_auth_fatal_listing_nonfatal_witness :
    upload_missing_videos ⟨.error (), .ok [], fun _ _ => .ok (some "yt42")⟩
        (fun _ => true) "T1"
        [("2026-02-02", { video_created := true, video_path := some "/out/v.mp4" })]
        ["2026-02-02"] =
      (0, [("2026-02-02", { video_created := true, video_path := some "/out/v.mp4" })])
    ∧ upload_missing_videos_run ⟨.ok (), .error (), fun _ _ => .ok (some "yt42")⟩
        (fun _ => true) "T1"
        [("2026-02-02", { video_created := true, video_path := some "/out/v.mp4" })]
        ["2026-02-02"] =
      upload_missing_videos_run ⟨.ok (), .ok [], fun _ _ => .ok (some "yt42")⟩
        (fun _ => true) "T1"
        [("2026-02-02", { video_created := true, video_path := some "/out/v.mp4" })]
        ["2026-02-02"] := by
  refine ⟨((C8_auth_fatal_listing_nonfatal ⟨.error (), .ok [], fun _ _ => .ok (some "yt42")⟩
      (fun _ => true) "T1"
      [("2026-02-02", { video_created := true, video_path := some "/out/v.mp4" })]
      ["2026-02-02"]).1 rfl).2, ?_⟩
  exact (C8_auth_fatal_listing_nonfatal ⟨.ok (), .error (), fun _ _ => .ok (some "yt42")⟩
      (fun _ => true) "T1"
      [("2026-02-02", { video_created := true, video_path := some "/out/v.mp4" })]
      ["2026-02-02"]).2 rfl rfl

lemma processDate_step (env : BuildEnv) (resolve : String → String) (now : String)
    (b : BuildStep) (d : String) :
    (processDate env resolve now b d).created =
      b.created + (if dateSucceeds env d then 1 else 0)
    ∧ (processDate env resolve now b d).recorded =
      b.recorded ++ (if dateSucceeds env d then [d] else []) := by
  unfold processDate processDateBody dateSucceeds
  cases env.fetchMeta d with
  | error e => simp
  | ok metadata =>
    cases hm : metadata.isEmpty with
    | true => simp [hm]
    | false =>
      simp only [hm, Bool.false_eq_true, if_false]
      cases env.downloadImages metadata with
      | error e => simp
      | ok frames =>
        by_cases h2 : frames.length < 2
        · simp [h2]
        · simp only [if_neg h2]
          cases env.createVideo frames (outputPathFor d) d with
          | error e => simp
          | ok vp => simp

lemma build_foldl_counts (env : BuildEnv) (resolve : String → String) (now : String)
    (l : List String) (b : BuildStep) :
    (l.foldl (processDate env resolve now) b).created =
      b.created + (l.filter (dateSucceeds env)).length
    ∧ (l.foldl (processDate env resolve now) b).recorded =
      b.recorded ++ l.filter (dateSucceeds env) := by
  induction l generalizing b with
  | nil => simp
  | cons d rest ih =>
    have hp := processDate_step env resolve now b d
    have hi := ih (processDate env resolve now b d)
    by_cases hd : dateSucceeds env d
    · constructor
      · rw [List.foldl_cons, hi.1, hp.1]
        simp [List.filter_cons, hd]
        omega
      · rw [List.foldl_cons, hi.2, hp.2]
        simp [List.filter_cons, hd]
    · constructor
      · rw [List.foldl_cons, hi.1, hp.1]
        simp [List.filter_cons, hd]
      · rw [List.foldl_cons, hi.2, hp.2]
        simp [List.filter_cons, hd]

/-- C7: `create_missing_videos` returns 0 (with nothing changed) when no
candidate date needs a video; every per-date failure is absorbed inside the
iteration, so each date of the needs-video list contributes according to
its own collaborator calls alone — the recorded dates are exactly the
succeeding ones, in order — and the returned count is exactly the number of
dates for which `mark_video_created` was performed this call. -/
theorem C7_build_per_date_isolation (env : BuildEnv) (fs : String → Bool)
    (resolve : String → String) (now : String) (st : BuildState) (dates : List String) :
    (get_dates_needing_video fs st.ledger dates = [] →
      create_missing_videos env fs resolve now st dates = (0, st))
    ∧ (create_missing_videos_run env fs resolve now st dates).created =
        (create_missing_videos_run env fs resolve now st dates).recorded.length
    ∧ (create_missing_videos_run env fs resolve now st dates).recorded =
        (get_dates_needing_video fs st.ledger dates).filter (dateSucceeds env) := by
  refine ⟨?_, ?_, ?_⟩
  · intro h
    simp [create_missing_videos, create_missing_videos_run, h]
  · unfold create_missing_videos_run
    by_cases hne : (get_dates_needing_video fs st.ledger dates).isEmpty
    · simp [hne]
    · simp only [hne, Bool.false_eq_true, if_false]
      have hfold := build_foldl_counts env resolve now
        (get_dates_needing_video fs st.ledger dates) ⟨st, 0, []⟩
      rw [hfold.1, hfold.2]
      simp
  · unfold create_missing_videos_run
    by_cases hne : (get_dates_needing_video fs st.ledger dates).isEmpty
    · have he : get_dates_needing_video fs st.ledger dates = [] :=
        List.isEmpty_iff.mp hne
      simp [hne, he]
    · simp only [hne, Bool.false_eq_true, if_false]
      have hfold := build_foldl_counts env resolve now
        (get_dates_needing_video fs st.ledger dates) ⟨st, 0, []⟩
      rw [hfold.2]
      simp

/-- Witness for C7 at concrete inputs: with both candidates already
built, the call returns 0 and changes nothing; with two outstanding dates
of which only the second renders successfully, the count is 1 and exactly
that date is recorded. -/
theorem C7_build_per_date_isolation_witness :
    create_missing_videos ⟨fun _ => .ok ["m"], fun _ => .ok ["f1", "f2"], fun _ o _ => .ok o⟩
        (fun _ => true) (fun s => s) "T1"
        ⟨[("2026-02-01", { video_created := true, video_path := some "/out/v.mp4" })], false⟩
        ["2026-02-01"] =
      (0, ⟨[("2026-02-01", { video_created := true, video_path := some "/out/v.mp4" })], false⟩)
    ∧ (create_missing_videos_run
        ⟨fun d => if d = "2026-02-01" then .error () else .ok ["m"],
         fun _ => .ok ["f1", "f2"], fun _ o _ => .ok o⟩
        (fun _ => false) (fun s => s) "T1" ⟨[], false⟩
        ["2026-02-01", "2026-02-02"]).recorded = ["2026-02-02"]
    ∧ (create_missing_videos_run
        ⟨fun d => if d = "2026-02-01" then .error () else .ok ["m"],
         fun _ => .ok ["f1", "f2"], fun _ o _ => .ok o⟩
        (fun _ => false) (fun s => s) "T1" ⟨[], false⟩
        ["2026-02-01", "2026-02-02"]).created = 1 := by
  refine ⟨(C7_build_per_date_isolation _ _ _ _ _ _).1 (by decide), ?_, ?_⟩
  · rw [(C7_build_per_date_isolation
      ⟨fun d => if d = "2026-02-01" then .error () else .ok ["m"],
       fun _ => .ok ["f1", "f2"], fun _ o _ => .ok o⟩
      (fun _ => false) (fun s => s) "T1" ⟨[], false⟩
      ["2026-02-01", "2026-02-02"]).2.2]
    decide
  · rw [(C7_build_per_date_isolation
      ⟨fun d => if d = "2026-02-01" then .error () else .ok ["m"],
       fun _ => .ok ["f1", "f2"], fun _ o _ => .ok o⟩
      (fun _ => false) (fun s => s) "T1" ⟨[], false⟩
      ["2026-02-01", "2026-02-02"]).2.1,
      (C7_build_per_date_isolation
      ⟨fun d => if d = "2026-02-01" then .error () else .ok ["m"],
       fun _ => .ok ["f1", "f2"], fun _ o _ => .ok o⟩
      (fun _ => false) (fun s => s) "T1" ⟨[], false⟩
      ["2026-02-01", "2026-02-02"]).2.2]
    decide

lemma processDate_frames (env : BuildEnv) (resolve : String → String) (now : String)
    (b : BuildStep) (d : String) :
    (processDate env resolve now b d).st.framesDirExists = false := by
  simp [processDate]

lemma foldl_processDate_frames (env : BuildEnv) (resolve : String → String) (now : String) :
    ∀ (l : List String) (b : BuildStep) (d : String),
      ((d :: l).foldl (processDate env resolve now) b).st.framesDirExists = false := by
  intro l
  induction l with
  | nil =>
    intro b d
    simpa using processDate_frames env resolve now b d
  | cons d' rest ih =>
    intro b d
    exact ih (processDate env resolve now b d) d'

/-- C9: cleanup of the scratch frames directory is guaranteed — after every
per-date iteration, on the success, skip and failure paths alike, the
frames directory no longer exists; in particular it does not exist when the
call returns after processing a non-empty needs-video list. -/
theorem C9_frames_always_cleaned (env : BuildEnv) (fs : String → Bool)
    (resolve : String → String) (now : String) (st : BuildState) (dates : List String) :
    (∀ (b : BuildStep) (d : String),
      (processDate env resolve now b d).st.framesDirExists = false)
    ∧ (get_dates_needing_video fs st.ledger dates ≠ [] →
      (create_missing_videos_run env fs resolve now st dates).st.framesDirExists = false) := by
  refine ⟨fun b d => processDate_frames env resolve now b d, fun hne => ?_⟩
  obtain ⟨d, l, he⟩ := List.exists_cons_of_ne_nil hne
  unfold create_missing_videos_run
  rw [he]
  simpa using foldl_processDate_frames env resolve now l ⟨st, 0, []⟩ d

/-- Witness for C9 at a concrete input: the frames directory exists before
the call and one date (which fails at the metadata fetch) needs a video;
after the call the directory is gone. -/
theorem C9_frames_always_cleaned_witness :
    (create_missing_videos_run ⟨fun _ => .error (), fun _ => .ok [], fun _ o _ => .ok o⟩
        (fun _ => false) (fun s => s) "T1" ⟨[], true⟩
        ["2026-02-02"]).st.framesDirExists = false :=
  (C9_frames_always_cleaned ⟨fun _ => .error (), fun _ => .ok [], fun _ o _ => .ok o⟩
      (fun _ => false) (fun s => s) "T1" ⟨[], true⟩ ["2026-02-02"]).2 (by decide)

end EpicBot
